import Mathlib

/-!
Verification of the vote-casting and duplicate-prevention engine of the
polling-app repository.

The embedding translates, from the repository sources:

* the relational schema of `supabase` migration 0001 (tables `polls`,
  `poll_options`, `votes` with the unique constraint
  `votes_unique_per_user_per_poll` over `(poll_id, user_id)`) together with
  the denormalized counter column `polls.total_votes` added by the schema
  design documents and maintained by migration 0003;
* the plpgsql functions `cast_vote` (migration 0001), `cast_vote_enhanced`,
  `user_has_voted` and the trigger function `update_poll_vote_count`
  (migration 0003);
* the TypeScript modules `src/lib/validation.ts` (`checkRateLimit`),
  `src/lib/csrf.ts` (`validateCSRFToken`), `src/lib/vote-prevention.ts`
  (`castVote`) and the server action `voteAction` of
  `src/app/polls/[id]/actions.ts`.

Database tables are lists of rows; a plpgsql function becomes a Lean
function from the database state to a new state plus a result; a raised
SQL exception becomes the error side of an `Except`.  To make the
concurrent first-vote race expressible, the functions that read a
snapshot and later write are given a two-state form: the checks evaluate
on `readDb` (the snapshot the statements saw) while the write applies to
`writeDb` (the table contents at write time, where the unique constraint
is enforced atomically).  The sequential call is the special case
`readDb = writeDb`.
-/

namespace PollApp

/-- Identifiers (uuid values in the schema) are modelled as strings. -/
abbrev UUID := String

/-- Row of `public.polls`: migration 0001 plus the denormalized
`total_votes integer not null default 0` column from the schema design
documents, which migration 0003 maintains. -/
structure PollRow where
  id : UUID
  owner_id : UUID
  is_public : Bool
  total_votes : Nat
deriving DecidableEq, Repr

/-- Row of `public.poll_options` (fields the engine reads). -/
structure OptionRow where
  id : UUID
  poll_id : UUID
deriving DecidableEq, Repr

/-- Row of `public.votes`. -/
structure VoteRow where
  id : UUID
  poll_id : UUID
  option_id : UUID
  user_id : UUID
  created_at : Nat
deriving DecidableEq, Repr

/-- The database state: the three tables the engine touches. -/
structure DB where
  polls : List PollRow
  options : List OptionRow
  votes : List VoteRow
deriving DecidableEq, Repr

/-- The empty database. -/
def DB.empty : DB := ⟨[], [], []⟩

/-- Query `exists(select 1 from polls where id = p and is_public = true)`
used by `cast_vote_enhanced`. -/
def pollExistsPublic (db : DB) (pollId : UUID) : Bool :=
  db.polls.any (fun p => p.id == pollId && p.is_public)

/-- Query `exists(select 1 from polls where id = p)` used by `cast_vote`. -/
def pollExists (db : DB) (pollId : UUID) : Bool :=
  db.polls.any (fun p => p.id == pollId)

/-- Query `select o.poll_id from poll_options o where o.id = optionId`:
`none` models the SQL null when no row matches. -/
def optionPollOf (db : DB) (optionId : UUID) : Option UUID :=
  (db.options.find? (fun o => o.id == optionId)).map (fun o => o.poll_id)

/-- Function `public.user_has_voted` of migration 0003: false for a null
user, otherwise existence of a votes row for the pair. -/
def user_has_voted (db : DB) (pollId : UUID) (uid : Option UUID) : Bool :=
  match uid with
  | none => false
  | some u => db.votes.any (fun v => v.poll_id == pollId && v.user_id == u)

/-- Count of votes rows referencing a poll:
`select count(*) from votes where poll_id = p`. -/
def votesForPoll (db : DB) (pollId : UUID) : Nat :=
  (db.votes.filter (fun v => v.poll_id == pollId)).length

/-- Count of votes rows referencing an option, the derived per-option
tally of the `poll_results` view. -/
def votesForOption (db : DB) (optionId : UUID) : Nat :=
  (db.votes.filter (fun v => v.option_id == optionId)).length

/-- Stored `total_votes` of a poll row (0 when the poll is absent). -/
def storedTotalVotes (db : DB) (pollId : UUID) : Nat :=
  match db.polls.find? (fun p => p.id == pollId) with
  | some p => p.total_votes
  | none => 0

/-- Trigger function `public.update_poll_vote_count` of migration 0003.
It runs `update polls set total_votes = (select count(*) from votes where
poll_id = new.poll_id) where id = new.poll_id`.  The trigger is declared
`after insert or delete on public.votes`; for a DELETE, plpgsql leaves
the record `NEW` null, so `new.poll_id` is null and the update matches no
poll row.  The argument `newRow` is the trigger record `NEW`
(`none` on DELETE). -/
def update_poll_vote_count (db : DB) (newRow : Option VoteRow) : DB :=
  match newRow with
  | none => db
  | some r =>
      { db with
        polls := db.polls.map (fun p =>
          if p.id == r.poll_id then
            { p with total_votes := votesForPoll db r.poll_id }
          else p) }

/-- SQLSTATE classes the embedded statements can raise. -/
inductive PgError
  | uniqueViolation
  | foreignKeyViolation
deriving DecidableEq, Repr

/-- Statement `insert into votes (poll_id, option_id, user_id) values
(...)` under the unique constraint `votes_unique_per_user_per_poll` over
`(poll_id, user_id)` of migration 0001 and the foreign keys to `polls`
and `poll_options`, followed by the after-insert row trigger
`trg_update_poll_vote_count`.  The constraint check is atomic with the
insert: a duplicate pair raises `unique_violation` and nothing is
written. -/
def insertVote (db : DB) (pollId optionId uid : UUID) (now : Nat) (freshId : UUID) : Except PgError DB :=
  if db.votes.any (fun v => v.poll_id == pollId && v.user_id == uid) then
    .error .uniqueViolation
  else if !(db.polls.any (fun p => p.id == pollId)) ||
          !(db.options.any (fun o => o.id == optionId)) then
    .error .foreignKeyViolation
  else
    let row : VoteRow := ⟨freshId, pollId, optionId, uid, now⟩
    let db1 : DB := { db with votes := db.votes ++ [row] }
    .ok (update_poll_vote_count db1 (some row))

/-- Statement `update votes set option_id = ..., created_at = now() where
poll_id = ... and user_id = ...` of the update branch of
`cast_vote_enhanced`.  No trigger fires (the trigger is on insert or
delete only). -/
def updateVoteRow (db : DB) (pollId optionId uid : UUID) (now : Nat) : DB :=
  { db with
    votes := db.votes.map (fun v =>
      if v.poll_id == pollId && v.user_id == uid then
        { v with option_id := optionId, created_at := now }
      else v) }

/-- Clause `returning id into v_vote_id` of that update statement: the id
of the row matched by `(poll_id, user_id)`, null when none matched. -/
def updatedVoteId (db : DB) (pollId uid : UUID) : Option UUID :=
  (db.votes.find? (fun v => v.poll_id == pollId && v.user_id == uid)).map
    (fun v => v.id)

/-- Deletion of a votes row by id (the explicit vote removal the RLS
policy `votes_delete_only_owner_or_poll_owner` permits), followed by the
after-delete row trigger `trg_update_poll_vote_count`, whose record `NEW`
is null on DELETE. -/
def deleteVote (db : DB) (voteId : UUID) : DB :=
  let db1 : DB := { db with votes := db.votes.filter (fun v => !(v.id == voteId)) }
  update_poll_vote_count db1 none

/-- Insertion of a fresh poll row; `total_votes` starts at its column
default 0. -/
def createPoll (db : DB) (pollId ownerId : UUID) (isPublic : Bool) : DB :=
  { db with polls := db.polls ++ [⟨pollId, ownerId, isPublic, 0⟩] }

/-- Insertion of a fresh option row. -/
def createOption (db : DB) (optionId pollId : UUID) : DB :=
  { db with options := db.options ++ [⟨optionId, pollId⟩] }

/-- Deletion of a poll with the `on delete cascade` clauses of migration
0001: its option rows and vote rows disappear with it.  The after-delete
vote trigger sees a null `NEW` and updates no poll. -/
def deletePoll (db : DB) (pollId : UUID) : DB :=
  { polls := db.polls.filter (fun p => !(p.id == pollId))
    options := db.options.filter (fun o => !(o.poll_id == pollId))
    votes := db.votes.filter (fun v => !(v.poll_id == pollId)) }

/-- Result object built by `cast_vote_enhanced` via `json_build_object`
and decoded by the TypeScript interface `VoteResult` of
`src/lib/vote-prevention.ts`. -/
structure VoteResult where
  success : Bool
  error : Option String := none
  error_code : Option String := none
  vote_id : Option UUID := none
  message : Option String := none
  can_update : Option Bool := none
deriving DecidableEq, Repr

/-- Body of `public.cast_vote_enhanced` (migration 0003), the statements
between `begin` and `exception`.  Checks read from `readDb`; the
insert/update statement applies to `writeDb`, where the unique constraint
is enforced.  The sequential call has `readDb = writeDb`; the concurrent
first-vote race is the case where `writeDb` already holds a row the
snapshot `readDb` did not show. -/
def cast_vote_enhanced_body (readDb writeDb : DB) (uid : Option UUID)
    (pollId optionId : UUID) (allowUpdate : Bool) (now : Nat)
    (freshId : UUID) : Except PgError (DB × VoteResult) :=
  match uid with
  | none =>
      .ok (writeDb,
        { success := false, error := some "Not authenticated",
          error_code := some "AUTH_REQUIRED" })
  | some u =>
      if !(pollExistsPublic readDb pollId) then
        .ok (writeDb,
          { success := false,
            error := some "Poll does not exist or is not public",
            error_code := some "POLL_NOT_FOUND" })
      else
        if optionPollOf readDb optionId == none ||
           !(optionPollOf readDb optionId == some pollId) then
          .ok (writeDb,
            { success := false,
              error := some "Option does not belong to poll",
              error_code := some "INVALID_OPTION" })
        else
          if user_has_voted readDb pollId (some u) && !allowUpdate then
            .ok (writeDb,
              { success := false,
                error := some "You have already voted on this poll",
                error_code := some "ALREADY_VOTED",
                can_update := some true })
          else
            if user_has_voted readDb pollId (some u) && allowUpdate then
              let db1 := updateVoteRow writeDb pollId optionId u now
              .ok (db1,
                { success := true,
                  vote_id := updatedVoteId db1 pollId u,
                  message := some "Vote updated successfully" })
            else
              match insertVote writeDb pollId optionId u now freshId with
              | .error e => .error e
              | .ok db1 =>
                  .ok (db1,
                    { success := true,
                      vote_id := some freshId,
                      message := some "Vote cast successfully" })

/-- Function `public.cast_vote_enhanced` with its exception section: a
`unique_violation` raised by the body is answered with the ALREADY_VOTED
result, every other error with the VOTE_ERROR result; a raised exception
rolls the write back, so the state is `writeDb` unchanged. -/
def cast_vote_enhanced_run (readDb writeDb : DB) (uid : Option UUID)
    (pollId optionId : UUID) (allowUpdate : Bool) (now : Nat)
    (freshId : UUID) : DB × VoteResult :=
  match cast_vote_enhanced_body readDb writeDb uid pollId optionId allowUpdate now freshId with
  | .ok r => r
  | .error .uniqueViolation =>
      (writeDb,
        { success := false,
          error := some "You have already voted on this poll",
          error_code := some "ALREADY_VOTED" })
  | .error _ =>
      (writeDb,
        { success := false,
          error := some "An error occurred while casting vote",
          error_code := some "VOTE_ERROR" })

/-- Sequential call of `cast_vote_enhanced`: checks and write see the
same state. -/
def cast_vote_enhanced (db : DB) (uid : Option UUID) (pollId optionId : UUID)
    (allowUpdate : Bool) (now : Nat) (freshId : UUID) : DB × VoteResult :=
  cast_vote_enhanced_run db db uid pollId optionId allowUpdate now freshId

/-- Exceptions `raise exception ...` of `public.cast_vote` (migration
0001), identified by their message texts. -/
inductive CastVoteError
  | notAuthenticated
  | pollMissing
  | optionNotInPoll
deriving DecidableEq, Repr

/-- Message text of a `cast_vote` exception, as surfaced to the caller of
the rpc (`error.message` in `executeVote`). -/
def castVoteErrorMessage : CastVoteError → String
  | .notAuthenticated => "Not authenticated"
  | .pollMissing => "Poll does not exist"
  | .optionNotInPoll => "Option does not belong to poll"

/-- Function `public.cast_vote` of migration 0001, two-state form: checks
on `readDb`, upsert on `writeDb`.  The statement `insert ... on conflict
(poll_id, user_id) do update set option_id = excluded.option_id` updates
the conflicting row in place (no trigger fires on that update branch);
without conflict it inserts and the after-insert trigger fires. -/
def cast_vote_from (readDb writeDb : DB) (uid : Option UUID)
    (pollId optionId : UUID) (now : Nat) (freshId : UUID) :
    Except CastVoteError DB :=
  match uid with
  | none => .error .notAuthenticated
  | some u =>
      if !(pollExists readDb pollId) then .error .pollMissing
      else
        if optionPollOf readDb optionId == none ||
           !(optionPollOf readDb optionId == some pollId) then
          .error .optionNotInPoll
        else
          if writeDb.votes.any (fun v => v.poll_id == pollId && v.user_id == u) then
            .ok { writeDb with
                  votes := writeDb.votes.map (fun v =>
                    if v.poll_id == pollId && v.user_id == u then
                      { v with option_id := optionId }
                    else v) }
          else
            let row : VoteRow := ⟨freshId, pollId, optionId, u, now⟩
            let db1 : DB := { writeDb with votes := writeDb.votes ++ [row] }
            .ok (update_poll_vote_count db1 (some row))

/-- Sequential call of `cast_vote`. -/
def cast_vote (db : DB) (uid : Option UUID) (pollId optionId : UUID)
    (now : Nat) (freshId : UUID) : Except CastVoteError DB :=
  cast_vote_from db db uid pollId optionId now freshId

/-- Function castVote of `src/lib/vote-prevention.ts`: it calls the
`cast_vote_enhanced` rpc; a transport-level rpc failure is mapped to the
VOTE_ERROR result, otherwise the json result is returned decoded. -/
def castVote (rpc : Except Unit VoteResult) : VoteResult :=
  match rpc with
  | .error _ =>
      { success := false, error := some "Failed to cast vote",
        error_code := some "VOTE_ERROR" }
  | .ok r => r

/-- Entry of the rateLimitMap in `src/lib/validation.ts`. -/
structure RateLimitEntry where
  count : Nat
  resetTime : Nat
  firstRequest : Nat
deriving DecidableEq, Repr

/-- Per-action configuration record of `src/lib/validation.ts`. -/
structure RateLimitConfig where
  windowMs : Nat
  maxRequests : Nat
  skipSuccessfulRequests : Bool
  skipFailedRequests : Bool
deriving DecidableEq, Repr

/-- Closed set of rate-limited actions. -/
inductive RLAction
  | vote
  | create_poll
  | delete_poll
  | view_poll
deriving DecidableEq, Repr

/-- Table RATE_LIMIT_CONFIGS of `src/lib/validation.ts`.  The action type
is the closed union, so the lookup is total and the no-config fallback
branch of checkRateLimit is unreachable. -/
def RATE_LIMIT_CONFIGS : RLAction → RateLimitConfig
  | .vote => ⟨60 * 1000, 5, false, true⟩
  | .create_poll => ⟨60 * 1000, 3, false, true⟩
  | .delete_poll => ⟨60 * 1000, 10, false, true⟩
  | .view_poll => ⟨60 * 1000, 100, false, true⟩

/-- The module-level `rateLimitMap` keyed store, keyed by the pair the
template string `userId:action` encodes. -/
def RateLimitMap := String → RLAction → Option RateLimitEntry

/-- Empty keyed store. -/
def RateLimitMap.empty : RateLimitMap := fun _ _ => none

/-- Store update at one key. -/
def RateLimitMap.set (m : RateLimitMap) (userId : String) (action : RLAction)
    (e : RateLimitEntry) : RateLimitMap :=
  fun u a => if u = userId ∧ a = action then some e else m u a

/-- Result object of checkRateLimit (the userMessage display string is
omitted; every other field is carried).  The remaining field is an
integer as in the source, where it is computed by subtraction. -/
structure RateLimitResult where
  allowed : Bool
  remaining : Int
  resetTime : Nat
  retryAfterSeconds : Nat
  limit : Nat
deriving DecidableEq, Repr

/-- Function checkRateLimit of `src/lib/validation.ts`.  The store is
threaded explicitly; `now` is `Date.now()`.  Lines 167-175 initialize or
reset the entry when absent or expired; `retryAfterSeconds` is
`Math.ceil((resetTime - now) / 1000)`; the two skip branches return
without counting; a count at or above the quota is rejected without
counting; otherwise the counter is incremented. -/
def checkRateLimit (m : RateLimitMap) (now : Nat) (userId : String)
    (action : RLAction) (success : Bool) : RateLimitMap × RateLimitResult :=
  let config := RATE_LIMIT_CONFIGS action
  let userLimit := m userId action
  let needsInit : Bool :=
    match userLimit with
    | none => true
    | some e => now > e.resetTime
  let entry : RateLimitEntry :=
    if needsInit then ⟨0, now + config.windowMs, now⟩
    else
      match userLimit with
      | some e => e
      | none => ⟨0, now + config.windowMs, now⟩
  let m1 := if needsInit then RateLimitMap.set m userId action entry else m
  let retryAfterSeconds := (entry.resetTime - now + 999) / 1000
  if config.skipSuccessfulRequests && success then
    (m1, ⟨true, (config.maxRequests : Int) - (entry.count : Int),
          entry.resetTime, retryAfterSeconds, config.maxRequests⟩)
  else if config.skipFailedRequests && !success then
    (m1, ⟨true, (config.maxRequests : Int) - (entry.count : Int),
          entry.resetTime, retryAfterSeconds, config.maxRequests⟩)
  else if entry.count ≥ config.maxRequests then
    (m1, ⟨false, 0, entry.resetTime, retryAfterSeconds, config.maxRequests⟩)
  else
    (RateLimitMap.set m userId action { entry with count := entry.count + 1 },
     ⟨true, (config.maxRequests : Int) - ((entry.count : Int) + 1),
      entry.resetTime, retryAfterSeconds, config.maxRequests⟩)

/-- Function validateCSRFToken of `src/lib/csrf.ts`: reads the csrf-token
cookie (`none` when absent, which JavaScript sees as undefined); a
missing or empty stored token or an empty supplied token is invalid;
otherwise strict string equality. -/
def validateCSRFToken (storedToken : Option String) (token : String) : Bool :=
  let s := storedToken.getD ""
  if s == "" || token == "" then false
  else s == token

/-- Hexadecimal digit test for the uuid format check. -/
def isHexDigit (c : Char) : Bool :=
  (('0' ≤ c) && (c ≤ '9')) || (('a' ≤ c) && (c ≤ 'f')) ||
  (('A' ≤ c) && (c ≤ 'F'))

/-- Format accepted by `z.string().uuid()`, which voteSchema applies to
both identifiers: 36 characters in the 8-4-4-4-12 shape, hyphens at the
separator positions and hexadecimal digits elsewhere.  The zod library is
external to the repository; its uuid format test is modelled at the
interface level by this shape check. -/
def isUuidString (s : String) : Bool :=
  let cs := s.toList
  cs.length == 36 &&
  (List.range 36).all (fun i =>
    if i == 8 || i == 13 || i == 18 || i == 23 then cs.getD i ' ' == '-'
    else isHexDigit (cs.getD i ' '))

/-- Function validateVoteInput of `src/lib/validation.ts`:
`voteSchema.parse` succeeds exactly when both identifiers pass the uuid
format check; a failure throws a ZodError. -/
def validateVoteInput (pollId optionId : String) : Bool :=
  isUuidString pollId && isUuidString optionId

/-- Redirect targets with which voteAction can finish; the
`next/navigation` redirect calls are modelled as terminal outcomes. -/
inductive VoteActionOutcome
  | redirectLogin
  | redirectVoted (pollId : String)
  | redirectError (pollId : String) (message : String)
deriving DecidableEq, Repr

/-- State visible to the orchestrator: the database behind the supabase
client and the module-level rate-limit store.  voteAction itself holds
nothing between calls; both stores live outside it. -/
structure OrchestratorState where
  db : DB
  rateMap : RateLimitMap

/-- Truthiness, in the JavaScript sense, of the object value returned by
checkRateLimit: an object reference is always truthy.  Line 126 of
`src/app/polls/[id]/actions.ts` applies the `!` operator to that object,
not to its allowed field. -/
def jsObjectTruthy (_ : RateLimitResult) : Bool := true

/-- Server action voteAction of `src/app/polls/[id]/actions.ts`.
Arguments beyond the TypeScript signature carry the request context:
`uid` is the authenticated user (`none` when ensureAuthenticated fails),
`storedCsrf` the csrf-token cookie, `now` the clock, `freshId` the
generated vote id.  Step order as in the source: CSRF check, structural
validation, authentication, rate limiting, vote execution; the catch
block maps AUTH_REQUIRED to the login redirect, VoteError codes to an
error redirect carrying the message, and a non-VoteError throw (the
ZodError of step 2) to the generic failure message. -/
def voteAction (st : OrchestratorState) (uid : Option UUID)
    (storedCsrf : Option String) (now : Nat) (freshId : UUID)
    (pollId optionId : String) (csrfToken : Option String) :
    OrchestratorState × VoteActionOutcome :=
  if csrfToken.getD "" != "" && !(validateCSRFToken storedCsrf (csrfToken.getD "")) then
    (st, .redirectError pollId "Invalid CSRF token")
  else if !(validateVoteInput pollId optionId) then
    (st, .redirectError pollId "Failed to submit vote")
  else
    match uid with
    | none => (st, .redirectLogin)
    | some u =>
        let rl := checkRateLimit st.rateMap now u .vote true
        let st1 : OrchestratorState := { st with rateMap := rl.1 }
        if !(jsObjectTruthy rl.2) then
          (st1, .redirectError pollId "Too many votes. Please wait before voting again.")
        else
          match cast_vote st1.db (some u) pollId optionId now freshId with
          | .error e => (st1, .redirectError pollId (castVoteErrorMessage e))
          | .ok db1 => ({ st1 with db := db1 }, .redirectVoted pollId)

/-- Outcome of `cast_vote` as a state transformer: the new state on
success, the unchanged state when the function raised. -/
def cast_vote_apply (readDb writeDb : DB) (uid : Option UUID)
    (pollId optionId : UUID) (now : Nat) (freshId : UUID) : DB :=
  match cast_vote_from readDb writeDb uid pollId optionId now freshId with
  | .ok db1 => db1
  | .error _ => writeDb

/-- One engine operation against the vote store.  The two cast functions
may have read a stale snapshot `readDb` (a concurrent interleaving);
their write applies to the current state, where the unique constraint is
enforced atomically. -/
inductive EngineStep : DB → DB → Prop
  | castEnhanced (db readDb : DB) (uid : Option UUID) (pollId optionId : UUID)
      (allowUpdate : Bool) (now : Nat) (freshId : UUID) :
      EngineStep db
        (cast_vote_enhanced_run readDb db uid pollId optionId allowUpdate now freshId).1
  | castLegacy (db readDb : DB) (uid : Option UUID) (pollId optionId : UUID)
      (now : Nat) (freshId : UUID) :
      EngineStep db (cast_vote_apply readDb db uid pollId optionId now freshId)
  | removeVote (db : DB) (voteId : UUID) : EngineStep db (deleteVote db voteId)
  | addPoll (db : DB) (pollId ownerId : UUID) (isPublic : Bool) :
      EngineStep db (createPoll db pollId ownerId isPublic)
  | addOption (db : DB) (optionId pollId : UUID) :
      EngineStep db (createOption db optionId pollId)
  | removePoll (db : DB) (pollId : UUID) : EngineStep db (deletePoll db pollId)

/-- Database states reachable from the empty database by engine
operations, concurrent interleavings included. -/
inductive ReachableDB : DB → Prop
  | empty : ReachableDB DB.empty
  | step {db db1 : DB} : ReachableDB db → EngineStep db db1 → ReachableDB db1

/-- Two vote rows collide on the unique key of
`votes_unique_per_user_per_poll`. -/
def sameVoteKey (a b : VoteRow) : Prop :=
  a.poll_id = b.poll_id ∧ a.user_id = b.user_id

/-- Core invariant: the vote table holds at most one row per
`(poll_id, user_id)` pair. -/
def AtMostOnePerPair (votes : List VoteRow) : Prop :=
  List.Pairwise (fun a b => ¬ sameVoteKey a b) votes

instance : DecidableRel sameVoteKey := fun _ _ => by
  unfold sameVoteKey; infer_instance

instance : DecidablePred AtMostOnePerPair := fun votes => by
  unfold AtMostOnePerPair; infer_instance

/-- The trigger function only rewrites poll counters; the vote table is
untouched. -/
theorem votes_update_poll_vote_count (db : DB) (n : Option VoteRow) :
    (update_poll_vote_count db n).votes = db.votes := by
  cases n <;> rfl

/-- Appending a row whose pair is absent preserves the invariant. -/
theorem atMostOne_append_single {l : List VoteRow} {row : VoteRow}
    (h : AtMostOnePerPair l)
    (hfree : (l.any (fun v => v.poll_id == row.poll_id && v.user_id == row.user_id)) = false) :
    AtMostOnePerPair (l ++ [row]) := by
  unfold AtMostOnePerPair at h ⊢
  rw [List.pairwise_append]
  refine ⟨h, List.pairwise_singleton _ _, ?_⟩
  intro a ha b hb hk
  have hb' : b = row := by simpa using hb
  rw [hb'] at hk
  unfold sameVoteKey at hk
  have hmem : (l.any (fun v => v.poll_id == row.poll_id && v.user_id == row.user_id)) = true := by
    rw [List.any_eq_true]
    exact ⟨a, ha, by simp [hk.1, hk.2]⟩
  rw [hmem] at hfree
  exact Bool.noConfusion hfree

/-- Mapping a row transformer that keeps the key fields preserves the
invariant. -/
theorem atMostOne_map_keyfix {l : List VoteRow} {f : VoteRow → VoteRow}
    (hf : ∀ v, (f v).poll_id = v.poll_id ∧ (f v).user_id = v.user_id)
    (h : AtMostOnePerPair l) : AtMostOnePerPair (l.map f) := by
  unfold AtMostOnePerPair at h ⊢
  refine List.Pairwise.map f ?_ h
  intro a b hab hk
  apply hab
  unfold sameVoteKey at hk ⊢
  exact ⟨((hf a).1.symm.trans hk.1).trans (hf b).1,
         ((hf a).2.symm.trans hk.2).trans (hf b).2⟩

/-- Filtering preserves the invariant. -/
theorem atMostOne_filter {l : List VoteRow} (p : VoteRow → Bool)
    (h : AtMostOnePerPair l) : AtMostOnePerPair (l.filter p) := by
  unfold AtMostOnePerPair at h ⊢
  exact List.Pairwise.sublist (List.filter_sublist l) h

/-- A successful constrained insert preserves the invariant: the unique
constraint admits the row only when its pair is absent. -/
theorem insertVote_preserves {db db1 : DB} {pollId optionId uid : UUID}
    {now : Nat} {freshId : UUID}
    (hok : insertVote db pollId optionId uid now freshId = .ok db1)
    (h : AtMostOnePerPair db.votes) : AtMostOnePerPair db1.votes := by
  unfold insertVote at hok
  split at hok
  · exact absurd hok (by simp)
  · next hfree =>
    split at hok
    · exact absurd hok (by simp)
    · cases hok
      rw [votes_update_poll_vote_count]
      have hfree' : (db.votes.any (fun v => v.poll_id == pollId && v.user_id == uid)) = false := by
        simpa using hfree
      exact atMostOne_append_single h hfree'

/-- The in-place update of the existing row preserves the invariant. -/
theorem updateVoteRow_preserves {db : DB} {pollId optionId uid : UUID} {now : Nat}
    (h : AtMostOnePerPair db.votes) :
    AtMostOnePerPair (updateVoteRow db pollId optionId uid now).votes := by
  unfold updateVoteRow
  refine atMostOne_map_keyfix ?_ h
  intro v
  dsimp only
  split <;> exact ⟨rfl, rfl⟩

/-- The full cast_vote_enhanced call preserves the invariant, whatever
snapshot the checks read: exception returns leave the table as it was,
the update branch rewrites in place, the insert branch is guarded by the
unique constraint. -/
theorem cast_vote_enhanced_run_preserves (readDb writeDb : DB)
    (uid : Option UUID) (pollId optionId : UUID) (allowUpdate : Bool)
    (now : Nat) (freshId : UUID)
    (h : AtMostOnePerPair writeDb.votes) :
    AtMostOnePerPair (cast_vote_enhanced_run readDb writeDb uid pollId optionId allowUpdate now freshId).1.votes := by
  unfold cast_vote_enhanced_run cast_vote_enhanced_body
  cases uid with
  | none => exact h
  | some u =>
    dsimp only
    by_cases h1 : (!pollExistsPublic readDb pollId) = true
    · rw [if_pos h1]; exact h
    · rw [if_neg h1]
      by_cases h2 : (optionPollOf readDb optionId == none ||
          !(optionPollOf readDb optionId == some pollId)) = true
      · rw [if_pos h2]; exact h
      · rw [if_neg h2]
        by_cases h3 : (user_has_voted readDb pollId (some u) && !allowUpdate) = true
        · rw [if_pos h3]; exact h
        · rw [if_neg h3]
          by_cases h4 : (user_has_voted readDb pollId (some u) && allowUpdate) = true
          · rw [if_pos h4]; exact updateVoteRow_preserves h
          · rw [if_neg h4]
            cases hins : insertVote writeDb pollId optionId u now freshId with
            | error e => cases e <;> exact h
            | ok db1 => exact insertVote_preserves hins h

/-- The cast_vote upsert preserves the invariant: the conflict branch
updates in place, the insert branch appends a fresh pair. -/
theorem cast_vote_apply_preserves (readDb writeDb : DB) (uid : Option UUID)
    (pollId optionId : UUID) (now : Nat) (freshId : UUID)
    (h : AtMostOnePerPair writeDb.votes) :
    AtMostOnePerPair (cast_vote_apply readDb writeDb uid pollId optionId now freshId).votes := by
  unfold cast_vote_apply cast_vote_from
  cases uid with
  | none => exact h
  | some u =>
    dsimp only
    by_cases h1 : (!pollExists readDb pollId) = true
    · rw [if_pos h1]; exact h
    · rw [if_neg h1]
      by_cases h2 : (optionPollOf readDb optionId == none ||
          !(optionPollOf readDb optionId == some pollId)) = true
      · rw [if_pos h2]; exact h
      · rw [if_neg h2]
        by_cases h3 : (writeDb.votes.any (fun v => v.poll_id == pollId && v.user_id == u)) = true
        · rw [if_pos h3]
          refine atMostOne_map_keyfix ?_ h
          intro v
          dsimp only
          split <;> exact ⟨rfl, rfl⟩
        · rw [if_neg h3]
          show AtMostOnePerPair (update_poll_vote_count
            { writeDb with votes := writeDb.votes ++ [⟨freshId, pollId, optionId, u, now⟩] }
            (some ⟨freshId, pollId, optionId, u, now⟩)).votes
          rw [votes_update_poll_vote_count]
          exact atMostOne_append_single h (by simpa using h3)

/-- Every single engine operation preserves the invariant. -/
theorem engineStep_preserves {db db1 : DB} (hstep : EngineStep db db1)
    (h : AtMostOnePerPair db.votes) : AtMostOnePerPair db1.votes := by
  cases hstep with
  | castEnhanced readDb uid pollId optionId allowUpdate now freshId =>
      exact cast_vote_enhanced_run_preserves readDb db uid pollId optionId allowUpdate now freshId h
  | castLegacy readDb uid pollId optionId now freshId =>
      exact cast_vote_apply_preserves readDb db uid pollId optionId now freshId h
  | removeVote voteId =>
      show AtMostOnePerPair (deleteVote db voteId).votes
      unfold deleteVote
      rw [votes_update_poll_vote_count]
      exact atMostOne_filter _ h
  | addPoll pollId ownerId isPublic => exact h
  | addOption optionId pollId => exact h
  | removePoll pollId =>
      show AtMostOnePerPair (deletePoll db pollId).votes
      unfold deletePoll
      exact atMostOne_filter _ h

/-- Filtering after a map whose transformer does not change the filter
verdict of any member yields a list of the same length. -/
theorem length_filter_map_congr {α : Type} {l : List α} {f : α → α} {p : α → Bool}
    (hp : ∀ v ∈ l, p (f v) = p v) :
    ((l.map f).filter p).length = (l.filter p).length := by
  induction l with
  | nil => rfl
  | cons a t ih =>
    have ha := hp a (List.mem_cons_self a t)
    have ht : ∀ v ∈ t, p (f v) = p v := fun v hv => hp v (List.mem_cons_of_mem a hv)
    by_cases hpa : p a = true
    · rw [List.map_cons, List.filter_cons_of_pos (by rw [ha]; exact hpa),
          List.filter_cons_of_pos hpa]
      simpa using ih ht
    · rw [List.map_cons,
          List.filter_cons_of_neg (by rw [ha]; simpa using hpa),
          List.filter_cons_of_neg (by simpa using hpa)]
      exact ih ht

/-- The in-place vote update leaves the per-poll ledger count of every
poll unchanged. -/
theorem votesForPoll_updateVoteRow (db : DB) (pollId optionId uid : UUID)
    (now : Nat) (pid : UUID) :
    votesForPoll (updateVoteRow db pollId optionId uid now) pid = votesForPoll db pid := by
  unfold votesForPoll updateVoteRow
  refine length_filter_map_congr ?_
  intro v _
  show ((if (v.poll_id == pollId && v.user_id == uid) = true then
          { v with option_id := optionId, created_at := now } else v).poll_id == pid) =
       (v.poll_id == pid)
  split <;> rfl

/-- The in-place vote update touches no poll row, so every stored
counter is unchanged. -/
theorem storedTotalVotes_updateVoteRow (db : DB) (pollId optionId uid : UUID)
    (now : Nat) (pid : UUID) :
    storedTotalVotes (updateVoteRow db pollId optionId uid now) pid = storedTotalVotes db pid := rfl

/-- C1.  For every pollId and voterId, after any sequence of castVote
calls, concurrent interleavings included, at most one vote ledger row
exists for the pair (pollId, voterId): every database state reachable by
engine operations satisfies the at-most-one-row-per-pair invariant, and
since every single operation is an atomic step of the embedding, no
operation creates a second row for a pair even transiently. -/
theorem c1_at_most_one_row_per_pair (db : DB) (h : ReachableDB db) :
    AtMostOnePerPair db.votes := by
  induction h with
  | empty => exact List.Pairwise.nil
  | step _ hstep ih => exact engineStep_preserves hstep ih

/-- Witness for C1 at a concrete reachable state: a poll, an option and
one enhanced cast. -/
theorem c1_at_most_one_row_per_pair_witness :
    AtMostOnePerPair ((cast_vote_enhanced_run
      (createOption (createPoll DB.empty "p" "owner" true) "o" "p")
      (createOption (createPoll DB.empty "p" "owner" true) "o" "p")
      (some "u") "p" "o" false 7 "v1").1).votes :=
  c1_at_most_one_row_per_pair _
    (ReachableDB.step
      (ReachableDB.step
        (ReachableDB.step ReachableDB.empty
          (EngineStep.addPoll DB.empty "p" "owner" true))
        (EngineStep.addOption (createPoll DB.empty "p" "owner" true) "o" "p"))
      (EngineStep.castEnhanced
        (createOption (createPoll DB.empty "p" "owner" true) "o" "p")
        (createOption (createPoll DB.empty "p" "owner" true) "o" "p")
        (some "u") "p" "o" false 7 "v1"))

/-- C3.  For a pair that already has a ledger row, a cast with
allowUpdate false (and the earlier gates passing) returns the
ALREADY_VOTED result and mutates nothing: the database is returned
unchanged, hence every per-option count, every per-poll ledger count and
every stored total are unchanged. -/
theorem c3_already_voted_no_mutation (db : DB) (u pollId optionId : UUID)
    (now : Nat) (freshId : UUID)
    (hpoll : pollExistsPublic db pollId = true)
    (hopt : optionPollOf db optionId = some pollId)
    (hvoted : user_has_voted db pollId (some u) = true) :
    cast_vote_enhanced db (some u) pollId optionId false now freshId =
      (db, { success := false,
             error := some "You have already voted on this poll",
             error_code := some "ALREADY_VOTED",
             can_update := some true }) ∧
    (∀ oid, votesForOption (cast_vote_enhanced db (some u) pollId optionId false now freshId).1 oid
       = votesForOption db oid) ∧
    (∀ pid, votesForPoll (cast_vote_enhanced db (some u) pollId optionId false now freshId).1 pid
       = votesForPoll db pid) ∧
    (∀ pid, storedTotalVotes (cast_vote_enhanced db (some u) pollId optionId false now freshId).1 pid
       = storedTotalVotes db pid) := by
  have hmain : cast_vote_enhanced db (some u) pollId optionId false now freshId =
      (db, { success := false,
             error := some "You have already voted on this poll",
             error_code := some "ALREADY_VOTED",
             can_update := some true }) := by
    unfold cast_vote_enhanced cast_vote_enhanced_run cast_vote_enhanced_body
    simp [hpoll, hopt, hvoted]
  refine ⟨hmain, ?_, ?_, ?_⟩ <;> intro x <;> rw [hmain]

/-- Witness for C3: one poll, one option, one existing vote, a repeated
cast with allowUpdate false. -/
theorem c3_already_voted_no_mutation_witness :
    cast_vote_enhanced
      ((cast_vote_enhanced (createOption (createPoll DB.empty "p" "owner" true) "o" "p")
         (some "u") "p" "o" false 0 "v1").1)
      (some "u") "p" "o" false 1 "v2" =
      (((cast_vote_enhanced (createOption (createPoll DB.empty "p" "owner" true) "o" "p")
         (some "u") "p" "o" false 0 "v1").1),
       { success := false,
         error := some "You have already voted on this poll",
         error_code := some "ALREADY_VOTED",
         can_update := some true }) :=
  (c3_already_voted_no_mutation _ "u" "p" "o" 1 "v2"
    (by decide) (by decide) (by decide)).1

/-- C4 evaluation at the failing input: a cast maintains the stored
total (insert trigger), but deleting the vote leaves the stored total at
1 while the ledger count drops to 0, because the delete trigger reads
the null record NEW. -/
theorem c4_delete_leaves_total_votes_stale :
    storedTotalVotes
      ((cast_vote_enhanced (createOption (createPoll DB.empty "p" "owner" true) "o" "p")
        (some "u") "p" "o" false 0 "v1").1) "p" = 1 ∧
    votesForPoll
      ((cast_vote_enhanced (createOption (createPoll DB.empty "p" "owner" true) "o" "p")
        (some "u") "p" "o" false 0 "v1").1) "p" = 1 ∧
    storedTotalVotes
      (deleteVote
        ((cast_vote_enhanced (createOption (createPoll DB.empty "p" "owner" true) "o" "p")
          (some "u") "p" "o" false 0 "v1").1) "v1") "p" = 1 ∧
    votesForPoll
      (deleteVote
        ((cast_vote_enhanced (createOption (createPoll DB.empty "p" "owner" true) "o" "p")
          (some "u") "p" "o" false 0 "v1").1) "v1") "p" = 0 := by
  decide

/-- C2 counterexample.  In the concurrent first-vote race with
allowUpdate true (the snapshot read an empty ledger while the competitor
row is already committed), the exception handler reports ALREADY_VOTED
and performs no update, instead of retrying the cast as an update as the
claim states. -/
theorem c2_race_with_allow_update_not_retried :
    (cast_vote_enhanced_run
      (createOption (createPoll DB.empty "p" "owner" true) "o" "p")
      ((cast_vote_enhanced (createOption (createPoll DB.empty "p" "owner" true) "o" "p")
         (some "u") "p" "o" true 0 "v1").1)
      (some "u") "p" "o" true 1 "v2").2.success = false ∧
    (cast_vote_enhanced_run
      (createOption (createPoll DB.empty "p" "owner" true) "o" "p")
      ((cast_vote_enhanced (createOption (createPoll DB.empty "p" "owner" true) "o" "p")
         (some "u") "p" "o" true 0 "v1").1)
      (some "u") "p" "o" true 1 "v2").2.error_code = some "ALREADY_VOTED" ∧
    (cast_vote_enhanced_run
      (createOption (createPoll DB.empty "p" "owner" true) "o" "p")
      ((cast_vote_enhanced (createOption (createPoll DB.empty "p" "owner" true) "o" "p")
         (some "u") "p" "o" true 0 "v1").1)
      (some "u") "p" "o" true 1 "v2").1 =
      ((cast_vote_enhanced (createOption (createPoll DB.empty "p" "owner" true) "o" "p")
         (some "u") "p" "o" true 0 "v1").1) := by
  decide

/-- C2 amended.  Whenever the insert step of cast_vote_enhanced raises
the uniqueness violation, the exception handler catches it and returns
the structured ALREADY_VOTED result with the table unchanged, regardless
of allowUpdate; neither the raw constraint error nor the generic
VOTE_ERROR result surfaces. -/
theorem c2_unique_violation_reported_as_already_voted (readDb writeDb : DB)
    (uid : Option UUID) (pollId optionId : UUID) (allowUpdate : Bool)
    (now : Nat) (freshId : UUID)
    (hviol : cast_vote_enhanced_body readDb writeDb uid pollId optionId allowUpdate now freshId
       = .error .uniqueViolation) :
    cast_vote_enhanced_run readDb writeDb uid pollId optionId allowUpdate now freshId =
      (writeDb,
        { success := false,
          error := some "You have already voted on this poll",
          error_code := some "ALREADY_VOTED" }) := by
  unfold cast_vote_enhanced_run
  rw [hviol]

/-- Witness for C2 amended at the concrete race input. -/
theorem c2_unique_violation_reported_as_already_voted_witness :
    cast_vote_enhanced_run
      (createOption (createPoll DB.empty "p" "owner" true) "o" "p")
      ((cast_vote_enhanced (createOption (createPoll DB.empty "p" "owner" true) "o" "p")
         (some "u") "p" "o" true 0 "v1").1)
      (some "u") "p" "o" true 1 "v2" =
      (((cast_vote_enhanced (createOption (createPoll DB.empty "p" "owner" true) "o" "p")
         (some "u") "p" "o" true 0 "v1").1),
       { success := false,
         error := some "You have already voted on this poll",
         error_code := some "ALREADY_VOTED" }) :=
  c2_unique_violation_reported_as_already_voted _ _ (some "u") "p" "o" true 1 "v2" rfl

/-- The per-option ledger count is unchanged by the in-place update when
the existing rows of the pair already carry the written option. -/
theorem votesForOption_updateVoteRow_same (db : DB) (pollId optionId uid : UUID)
    (now : Nat)
    (hsame : ∀ v ∈ db.votes, v.poll_id = pollId → v.user_id = uid → v.option_id = optionId)
    (oid : UUID) :
    votesForOption (updateVoteRow db pollId optionId uid now) oid = votesForOption db oid := by
  unfold votesForOption updateVoteRow
  refine length_filter_map_congr ?_
  intro v hv
  show ((if (v.poll_id == pollId && v.user_id == uid) = true then
          { v with option_id := optionId, created_at := now } else v).option_id == oid) =
       (v.option_id == oid)
  by_cases hc : (v.poll_id == pollId && v.user_id == uid) = true
  · have hprops : v.poll_id = pollId ∧ v.user_id = uid := by
      simpa using hc
    have hvo : v.option_id = optionId := hsame v hv hprops.1 hprops.2
    rw [if_pos hc]
    show (optionId == oid) = (v.option_id == oid)
    rw [hvo]
  · rw [if_neg hc]

/-- C7.  Casting the same option again with allowUpdate true yields the
Updated outcome and changes no counts (first part); more generally, any
call of cast_vote_enhanced that answers with the Updated message leaves
every per-poll ledger count and every stored total unchanged (second
part). -/
theorem c7_update_idempotent_and_total_preserved :
    (∀ (db : DB) (u pollId optionId : UUID) (now : Nat) (freshId : UUID),
      pollExistsPublic db pollId = true →
      optionPollOf db optionId = some pollId →
      user_has_voted db pollId (some u) = true →
      (∀ v ∈ db.votes, v.poll_id = pollId → v.user_id = u → v.option_id = optionId) →
      (cast_vote_enhanced db (some u) pollId optionId true now freshId).2.success = true ∧
      (cast_vote_enhanced db (some u) pollId optionId true now freshId).2.message =
        some "Vote updated successfully" ∧
      (∀ oid, votesForOption (cast_vote_enhanced db (some u) pollId optionId true now freshId).1 oid
         = votesForOption db oid) ∧
      (∀ pid, votesForPoll (cast_vote_enhanced db (some u) pollId optionId true now freshId).1 pid
         = votesForPoll db pid) ∧
      (∀ pid, storedTotalVotes (cast_vote_enhanced db (some u) pollId optionId true now freshId).1 pid
         = storedTotalVotes db pid)) ∧
    (∀ (db : DB) (uid : Option UUID) (pollId optionId : UUID) (allowUpdate : Bool)
       (now : Nat) (freshId : UUID),
      (cast_vote_enhanced db uid pollId optionId allowUpdate now freshId).2.message =
        some "Vote updated successfully" →
      (∀ pid, votesForPoll (cast_vote_enhanced db uid pollId optionId allowUpdate now freshId).1 pid
          = votesForPoll db pid ∧
        storedTotalVotes (cast_vote_enhanced db uid pollId optionId allowUpdate now freshId).1 pid
          = storedTotalVotes db pid)) := by
  constructor
  · intro db u pollId optionId now freshId hpoll hopt hvoted hsame
    have hmain : cast_vote_enhanced db (some u) pollId optionId true now freshId =
        (updateVoteRow db pollId optionId u now,
         { success := true,
           vote_id := updatedVoteId (updateVoteRow db pollId optionId u now) pollId u,
           message := some "Vote updated successfully" }) := by
      unfold cast_vote_enhanced cast_vote_enhanced_run cast_vote_enhanced_body
      simp [hpoll, hopt, hvoted]
    refine ⟨by rw [hmain], by rw [hmain], ?_, ?_, ?_⟩ <;> intro x <;> rw [hmain]
    · exact votesForOption_updateVoteRow_same db pollId optionId u now hsame x
    · exact votesForPoll_updateVoteRow db pollId optionId u now x
    · exact storedTotalVotes_updateVoteRow db pollId optionId u now x
  · intro db uid pollId optionId allowUpdate now freshId hm pid
    unfold cast_vote_enhanced cast_vote_enhanced_run cast_vote_enhanced_body at hm ⊢
    cases uid with
    | none => simp at hm
    | some u =>
      dsimp only at hm ⊢
      by_cases h1 : (!pollExistsPublic db pollId) = true
      · rw [if_pos h1] at hm; simp at hm
      · rw [if_neg h1] at hm ⊢
        by_cases h2 : (optionPollOf db optionId == none ||
            !(optionPollOf db optionId == some pollId)) = true
        · rw [if_pos h2] at hm; simp at hm
        · rw [if_neg h2] at hm ⊢
          by_cases h3 : (user_has_voted db pollId (some u) && !allowUpdate) = true
          · rw [if_pos h3] at hm; simp at hm
          · rw [if_neg h3] at hm ⊢
            by_cases h4 : (user_has_voted db pollId (some u) && allowUpdate) = true
            · rw [if_pos h4] at hm ⊢
              exact ⟨votesForPoll_updateVoteRow db pollId optionId u now pid,
                     storedTotalVotes_updateVoteRow db pollId optionId u now pid⟩
            · rw [if_neg h4] at hm ⊢
              cases hins : insertVote db pollId optionId u now freshId with
              | error e => rw [hins] at hm; cases e <;> simp at hm
              | ok db1 => rw [hins] at hm; simp at hm

/-- Witness for C7 part one: the same user re-casts the option they
already hold with allowUpdate true. -/
theorem c7_update_idempotent_and_total_preserved_witness :
    (cast_vote_enhanced
      ((cast_vote_enhanced (createOption (createPoll DB.empty "p" "owner" true) "o" "p")
         (some "u") "p" "o" true 0 "v1").1)
      (some "u") "p" "o" true 2 "v3").2.success = true ∧
    (cast_vote_enhanced
      ((cast_vote_enhanced (createOption (createPoll DB.empty "p" "owner" true) "o" "p")
         (some "u") "p" "o" true 0 "v1").1)
      (some "u") "p" "o" true 2 "v3").2.message = some "Vote updated successfully" ∧
    votesForOption
      (cast_vote_enhanced
        ((cast_vote_enhanced (createOption (createPoll DB.empty "p" "owner" true) "o" "p")
           (some "u") "p" "o" true 0 "v1").1)
        (some "u") "p" "o" true 2 "v3").1 "o" =
      votesForOption
        ((cast_vote_enhanced (createOption (createPoll DB.empty "p" "owner" true) "o" "p")
           (some "u") "p" "o" true 0 "v1").1) "o" := by
  have h := c7_update_idempotent_and_total_preserved.1
    ((cast_vote_enhanced (createOption (createPoll DB.empty "p" "owner" true) "o" "p")
       (some "u") "p" "o" true 0 "v1").1)
    "u" "p" "o" 2 "v3" (by decide) (by decide) (by decide) (by decide)
  exact ⟨h.1, h.2.1, h.2.2.1 "o"⟩

/-- C10.  Every cast_vote_enhanced call returns a structured result with
a boolean success flag; on failure the error code lies in the closed set
AUTH_REQUIRED, POLL_NOT_FOUND, INVALID_OPTION, ALREADY_VOTED, VOTE_ERROR;
and every exception the body raises is mapped by the handler into that
set (ALREADY_VOTED for the uniqueness violation, VOTE_ERROR otherwise),
so no raw database exception propagates. -/
theorem c10_closed_error_codes (readDb writeDb : DB) (uid : Option UUID)
    (pollId optionId : UUID) (allowUpdate : Bool) (now : Nat) (freshId : UUID) :
    ((cast_vote_enhanced_run readDb writeDb uid pollId optionId allowUpdate now freshId).2.success = true →
      (cast_vote_enhanced_run readDb writeDb uid pollId optionId allowUpdate now freshId).2.error_code = none) ∧
    ((cast_vote_enhanced_run readDb writeDb uid pollId optionId allowUpdate now freshId).2.success = false →
      (cast_vote_enhanced_run readDb writeDb uid pollId optionId allowUpdate now freshId).2.error_code = some "AUTH_REQUIRED" ∨
      (cast_vote_enhanced_run readDb writeDb uid pollId optionId allowUpdate now freshId).2.error_code = some "POLL_NOT_FOUND" ∨
      (cast_vote_enhanced_run readDb writeDb uid pollId optionId allowUpdate now freshId).2.error_code = some "INVALID_OPTION" ∨
      (cast_vote_enhanced_run readDb writeDb uid pollId optionId allowUpdate now freshId).2.error_code = some "ALREADY_VOTED" ∨
      (cast_vote_enhanced_run readDb writeDb uid pollId optionId allowUpdate now freshId).2.error_code = some "VOTE_ERROR") ∧
    (∀ e, cast_vote_enhanced_body readDb writeDb uid pollId optionId allowUpdate now freshId = .error e →
      (cast_vote_enhanced_run readDb writeDb uid pollId optionId allowUpdate now freshId).2.success = false ∧
      ((cast_vote_enhanced_run readDb writeDb uid pollId optionId allowUpdate now freshId).2.error_code = some "ALREADY_VOTED" ∨
       (cast_vote_enhanced_run readDb writeDb uid pollId optionId allowUpdate now freshId).2.error_code = some "VOTE_ERROR")) := by
  unfold cast_vote_enhanced_run cast_vote_enhanced_body
  cases uid with
  | none =>
    refine ⟨fun h => absurd h (by simp), fun _ => Or.inl rfl, fun e he => absurd he (by simp)⟩
  | some u =>
    dsimp only
    by_cases h1 : (!pollExistsPublic readDb pollId) = true
    · rw [if_pos h1]
      exact ⟨fun h => absurd h (by simp), fun _ => Or.inr (Or.inl rfl),
             fun e he => absurd he (by simp)⟩
    · rw [if_neg h1]
      by_cases h2 : (optionPollOf readDb optionId == none ||
          !(optionPollOf readDb optionId == some pollId)) = true
      · rw [if_pos h2]
        exact ⟨fun h => absurd h (by simp), fun _ => Or.inr (Or.inr (Or.inl rfl)),
               fun e he => absurd he (by simp)⟩
      · rw [if_neg h2]
        by_cases h3 : (user_has_voted readDb pollId (some u) && !allowUpdate) = true
        · rw [if_pos h3]
          exact ⟨fun h => absurd h (by simp), fun _ => Or.inr (Or.inr (Or.inr (Or.inl rfl))),
                 fun e he => absurd he (by simp)⟩
        · rw [if_neg h3]
          by_cases h4 : (user_has_voted readDb pollId (some u) && allowUpdate) = true
          · rw [if_pos h4]
            exact ⟨fun _ => rfl, fun h => absurd h (by simp),
                   fun e he => absurd he (by simp)⟩
          · rw [if_neg h4]
            cases hins : insertVote writeDb pollId optionId u now freshId with
            | error e =>
              cases e with
              | uniqueViolation =>
                exact ⟨fun h => absurd h (by simp), fun _ => Or.inr (Or.inr (Or.inr (Or.inl rfl))),
                       fun e he => ⟨rfl, Or.inl rfl⟩⟩
              | foreignKeyViolation =>
                exact ⟨fun h => absurd h (by simp), fun _ => Or.inr (Or.inr (Or.inr (Or.inr rfl))),
                       fun e he => ⟨rfl, Or.inr rfl⟩⟩
            | ok db1 =>
              exact ⟨fun _ => rfl, fun h => absurd h (by simp),
                     fun e he => absurd he (by simp)⟩

/-- Witness for C10 at an unauthenticated call. -/
theorem c10_closed_error_codes_witness :
    (cast_vote_enhanced_run DB.empty DB.empty none "p" "o" false 0 "v1").2.error_code = some "AUTH_REQUIRED" ∨
    (cast_vote_enhanced_run DB.empty DB.empty none "p" "o" false 0 "v1").2.error_code = some "POLL_NOT_FOUND" ∨
    (cast_vote_enhanced_run DB.empty DB.empty none "p" "o" false 0 "v1").2.error_code = some "INVALID_OPTION" ∨
    (cast_vote_enhanced_run DB.empty DB.empty none "p" "o" false 0 "v1").2.error_code = some "ALREADY_VOTED" ∨
    (cast_vote_enhanced_run DB.empty DB.empty none "p" "o" false 0 "v1").2.error_code = some "VOTE_ERROR" :=
  (c10_closed_error_codes DB.empty DB.empty none "p" "o" false 0 "v1").2.1 rfl

/-- Reduction of checkRateLimit at the default success flag for a key
whose entry is inside its window: the skip branches are inert for every
configured action, a count at quota rejects without writing, and
otherwise the counter is incremented by one. -/
theorem checkRateLimit_in_window (m : RateLimitMap) (now : Nat)
    (userId : String) (action : RLAction) (e : RateLimitEntry)
    (hent : m userId action = some e) (hwin : ¬ now > e.resetTime) :
    checkRateLimit m now userId action true =
      if e.count ≥ (RATE_LIMIT_CONFIGS action).maxRequests then
        (m, ⟨false, 0, e.resetTime, (e.resetTime - now + 999) / 1000,
             (RATE_LIMIT_CONFIGS action).maxRequests⟩)
      else
        (RateLimitMap.set m userId action ⟨e.count + 1, e.resetTime, e.firstRequest⟩,
         ⟨true, ((RATE_LIMIT_CONFIGS action).maxRequests : Int) - ((e.count : Int) + 1),
          e.resetTime, (e.resetTime - now + 999) / 1000,
          (RATE_LIMIT_CONFIGS action).maxRequests⟩) := by
  have hskip : (RATE_LIMIT_CONFIGS action).skipSuccessfulRequests = false := by
    cases action <;> rfl
  unfold checkRateLimit
  rw [hent]
  simp only [decide_eq_false hwin, hskip, Bool.false_and, Bool.not_true, Bool.and_false,
    Bool.false_eq_true, if_false]

/-- C6.  At the default success flag, for every key (subject, action): a
call made while the unexpired window entry has reached the quota returns
allowed false and returns the store entirely unchanged; an admitted call
increments exactly the counter of that key by one, leaving every other
key untouched. -/
theorem c6_quota_reject_no_increment (m : RateLimitMap) (now : Nat)
    (userId : String) (action : RLAction) (e : RateLimitEntry)
    (hent : m userId action = some e) (hwin : ¬ now > e.resetTime) :
    (e.count ≥ (RATE_LIMIT_CONFIGS action).maxRequests →
      (checkRateLimit m now userId action true).2.allowed = false ∧
      (checkRateLimit m now userId action true).1 = m) ∧
    (e.count < (RATE_LIMIT_CONFIGS action).maxRequests →
      (checkRateLimit m now userId action true).2.allowed = true ∧
      (checkRateLimit m now userId action true).1 userId action =
        some ⟨e.count + 1, e.resetTime, e.firstRequest⟩ ∧
      ∀ u2 a2, ¬(u2 = userId ∧ a2 = action) →
        (checkRateLimit m now userId action true).1 u2 a2 = m u2 a2) := by
  rw [checkRateLimit_in_window m now userId action e hent hwin]
  constructor
  · intro hge
    rw [if_pos hge]
    exact ⟨rfl, rfl⟩
  · intro hlt
    rw [if_neg (not_le.mpr hlt)]
    refine ⟨rfl, ?_, ?_⟩
    · unfold RateLimitMap.set
      show (if userId = userId ∧ action = action then
              some (⟨e.count + 1, e.resetTime, e.firstRequest⟩ : RateLimitEntry)
            else m userId action) = some ⟨e.count + 1, e.resetTime, e.firstRequest⟩
      rw [if_pos ⟨rfl, rfl⟩]
    · intro u2 a2 hne
      unfold RateLimitMap.set
      show (if u2 = userId ∧ a2 = action then
              some (⟨e.count + 1, e.resetTime, e.firstRequest⟩ : RateLimitEntry)
            else m u2 a2) = m u2 a2
      rw [if_neg hne]

/-- Witness for C6: a key at quota is rejected with the store unchanged,
and a key below quota is admitted with its counter bumped to 4. -/
theorem c6_quota_reject_no_increment_witness :
    ((checkRateLimit (RateLimitMap.set RateLimitMap.empty "u" RLAction.vote ⟨5, 60000, 0⟩)
        1000 "u" RLAction.vote true).2.allowed = false ∧
     (checkRateLimit (RateLimitMap.set RateLimitMap.empty "u" RLAction.vote ⟨5, 60000, 0⟩)
        1000 "u" RLAction.vote true).1 =
       RateLimitMap.set RateLimitMap.empty "u" RLAction.vote ⟨5, 60000, 0⟩) ∧
    ((checkRateLimit (RateLimitMap.set RateLimitMap.empty "u" RLAction.vote ⟨3, 60000, 0⟩)
        1000 "u" RLAction.vote true).2.allowed = true ∧
     (checkRateLimit (RateLimitMap.set RateLimitMap.empty "u" RLAction.vote ⟨3, 60000, 0⟩)
        1000 "u" RLAction.vote true).1 "u" RLAction.vote = some ⟨4, 60000, 0⟩) :=
  ⟨(c6_quota_reject_no_increment _ 1000 "u" RLAction.vote ⟨5, 60000, 0⟩
      (by decide) (by decide)).1 (by decide),
   ⟨((c6_quota_reject_no_increment _ 1000 "u" RLAction.vote ⟨3, 60000, 0⟩
      (by decide) (by decide)).2 (by decide)).1,
    ((c6_quota_reject_no_increment _ 1000 "u" RLAction.vote ⟨3, 60000, 0⟩
      (by decide) (by decide)).2 (by decide)).2.1⟩⟩

/-- Uuid-formatted poll identifier used in the orchestrator scenarios. -/
def pollIdA : String := "00000000-0000-0000-0000-00000000000a"

/-- Uuid-formatted option identifier used in the orchestrator
scenarios. -/
def optionIdB : String := "00000000-0000-0000-0000-00000000000b"

/-- Fixture database: one public poll with one option. -/
def dbFixture : DB := createOption (createPoll DB.empty pollIdA "owner" true) optionIdB pollIdA

/-- Orchestrator state after n consecutive voteAction calls by the same
user at one-second intervals, starting from the fixture and an empty
rate-limit store. -/
def voteActionIter : Nat → OrchestratorState
  | 0 => ⟨dbFixture, RateLimitMap.empty⟩
  | n + 1 => (voteAction (voteActionIter n) (some "u") none (n * 1000) "v"
      pollIdA optionIdB none).1

/-- Branch lemma: a supplied, truthy, invalid CSRF token aborts
voteAction at step 1 with the CSRF failure and no state change. -/
theorem voteAction_csrf_fail (st : OrchestratorState) (uid : Option UUID)
    (storedCsrf : Option String) (now : Nat) (freshId : UUID)
    (pollId optionId : String) (csrfToken : Option String)
    (hc : (csrfToken.getD "" != "" && !(validateCSRFToken storedCsrf (csrfToken.getD ""))) = true) :
    voteAction st uid storedCsrf now freshId pollId optionId csrfToken =
      (st, .redirectError pollId "Invalid CSRF token") := by
  unfold voteAction
  rw [if_pos hc]

/-- Branch lemma: with the CSRF gate passed and malformed identifiers,
voteAction aborts at step 2; the thrown ZodError is not a VoteError, so
the catch block answers the generic failure, with no state change. -/
theorem voteAction_invalid_input (st : OrchestratorState) (uid : Option UUID)
    (storedCsrf : Option String) (now : Nat) (freshId : UUID)
    (pollId optionId : String) (csrfToken : Option String)
    (hc : (csrfToken.getD "" != "" && !(validateCSRFToken storedCsrf (csrfToken.getD ""))) = false)
    (hval : validateVoteInput pollId optionId = false) :
    voteAction st uid storedCsrf now freshId pollId optionId csrfToken =
      (st, .redirectError pollId "Failed to submit vote") := by
  unfold voteAction
  rw [if_neg (by simp [hc]), if_pos (by simp [hval])]

/-- Branch lemma: with CSRF and structural validation passed and no
authenticated user, voteAction aborts at step 3 with the login redirect
and no state change. -/
theorem voteAction_unauthenticated (st : OrchestratorState)
    (storedCsrf : Option String) (now : Nat) (freshId : UUID)
    (pollId optionId : String) (csrfToken : Option String)
    (hc : (csrfToken.getD "" != "" && !(validateCSRFToken storedCsrf (csrfToken.getD ""))) = false)
    (hval : validateVoteInput pollId optionId = true) :
    voteAction st none storedCsrf now freshId pollId optionId csrfToken =
      (st, .redirectLogin) := by
  unfold voteAction
  rw [if_neg (by simp [hc]), if_neg (by simp [hval])]

/-- Branch lemma: with every pure gate passed, voteAction updates the
rate store by the checkRateLimit call (whose result object is truthy, so
the rate gate never aborts) and finishes according to the cast_vote
outcome. -/
theorem voteAction_authed (st : OrchestratorState) (u : UUID)
    (storedCsrf : Option String) (now : Nat) (freshId : UUID)
    (pollId optionId : String) (csrfToken : Option String)
    (hc : (csrfToken.getD "" != "" && !(validateCSRFToken storedCsrf (csrfToken.getD ""))) = false)
    (hval : validateVoteInput pollId optionId = true) :
    voteAction st (some u) storedCsrf now freshId pollId optionId csrfToken =
      match cast_vote st.db (some u) pollId optionId now freshId with
      | .error e =>
          ({ st with rateMap := (checkRateLimit st.rateMap now u RLAction.vote true).1 },
           .redirectError pollId (castVoteErrorMessage e))
      | .ok db1 =>
          (⟨db1, (checkRateLimit st.rateMap now u RLAction.vote true).1⟩,
           .redirectVoted pollId) := by
  unfold voteAction
  rw [if_neg (by simp [hc]), if_neg (by simp [hval])]
  dsimp only [jsObjectTruthy]
  rw [if_neg (by simp)]

/-- The rate-limit rejection outcome of voteAction is unreachable: the
guard negates the object returned by checkRateLimit, which is always
truthy, so no call ever answers the rate-limited error redirect. -/
theorem voteAction_never_rate_limited (st : OrchestratorState)
    (uid : Option UUID) (storedCsrf : Option String) (now : Nat)
    (freshId : UUID) (pollId optionId : String) (csrfToken : Option String) :
    (voteAction st uid storedCsrf now freshId pollId optionId csrfToken).2 ≠
      VoteActionOutcome.redirectError pollId
        "Too many votes. Please wait before voting again." := by
  by_cases hc : (csrfToken.getD "" != "" && !(validateCSRFToken storedCsrf (csrfToken.getD ""))) = true
  · rw [voteAction_csrf_fail st uid storedCsrf now freshId pollId optionId csrfToken hc]
    intro hcon
    injection hcon with h1 h2
    exact absurd h2 (by decide)
  · have hc' : (csrfToken.getD "" != "" && !(validateCSRFToken storedCsrf (csrfToken.getD ""))) = false := by
      simpa using hc
    by_cases hval : validateVoteInput pollId optionId = true
    · cases uid with
      | none =>
        rw [voteAction_unauthenticated st storedCsrf now freshId pollId optionId csrfToken hc' hval]
        intro hcon
        cases hcon
      | some u =>
        rw [voteAction_authed st u storedCsrf now freshId pollId optionId csrfToken hc' hval]
        cases cast_vote st.db (some u) pollId optionId now freshId with
        | error e =>
          cases e <;>
            · intro hcon
              injection hcon with h1 h2
              exact absurd h2 (by decide)
        | ok db1 =>
          intro hcon
          cases hcon
    · have hval' : validateVoteInput pollId optionId = false := by
        simpa using hval
      rw [voteAction_invalid_input st uid storedCsrf now freshId pollId optionId csrfToken hc' hval']
      intro hcon
      injection hcon with h1 h2
      exact absurd h2 (by decide)

/-- C5 evaluation at the failing input.  After five votes by the same
user within one 60-second window the limiter itself is exhausted: the
sixth admission request returns allowed false with retryAfterSeconds at
most 60.  Yet the sixth voteAction call is not rejected: it completes
with the success redirect, because the guard on line 126 negates the
always-truthy result object instead of its allowed field; the
rate-limited outcome is unreachable for every input. -/
theorem c5_sixth_vote_admitted_despite_quota :
    (checkRateLimit (voteActionIter 5).rateMap 5000 "u" RLAction.vote true).2.allowed = false ∧
    (checkRateLimit (voteActionIter 5).rateMap 5000 "u" RLAction.vote true).2.retryAfterSeconds ≤ 60 ∧
    (voteAction (voteActionIter 5) (some "u") none 5000 "v" pollIdA optionIdB none).2 =
      VoteActionOutcome.redirectVoted pollIdA ∧
    (∀ st uid storedCsrf now freshId pollId optionId csrfToken,
      (voteAction st uid storedCsrf now freshId pollId optionId csrfToken).2 ≠
        VoteActionOutcome.redirectError pollId
          "Too many votes. Please wait before voting again.") :=
  ⟨by decide, by decide, by decide, voteAction_never_rate_limited⟩

/-- C8 counterexample.  An unauthenticated call carrying a mismatched
CSRF token fails with the CSRF failure redirect, not the login redirect:
the CSRF check runs before the Identity Gate, so the order the claim
states is not the order of the code. -/
theorem c8_csrf_checked_before_identity :
    (voteAction ⟨dbFixture, RateLimitMap.empty⟩ none (some "tok") 0 "v"
       pollIdA optionIdB (some "bad")).2 =
      VoteActionOutcome.redirectError pollIdA "Invalid CSRF token" ∧
    (voteAction ⟨dbFixture, RateLimitMap.empty⟩ none (some "tok") 0 "v"
       pollIdA optionIdB (some "bad")).2 ≠ VoteActionOutcome.redirectLogin := by
  decide

/-- C8 amended.  voteAction executes its gates in the order CSRF check,
structural input validation, Identity Gate, rate limiter, ledger write
(referential validation happens inside the ledger database function),
fail-fast: a CSRF, structural or identity failure aborts immediately
with that failure outcome and returns the state entirely unchanged; the
admitted rate-limit step updates only the limiter store; the vote store
changes only through the ledger step, and on a ledger failure it too is
unchanged.  voteAction itself is a pure function of the state handed to
it, holding nothing between calls. -/
theorem c8_gate_order_and_frame :
    (∀ st uid storedCsrf now freshId pollId optionId csrfToken,
      (csrfToken.getD "" != "" && !(validateCSRFToken storedCsrf (csrfToken.getD ""))) = true →
      voteAction st uid storedCsrf now freshId pollId optionId csrfToken =
        (st, VoteActionOutcome.redirectError pollId "Invalid CSRF token")) ∧
    (∀ st uid storedCsrf now freshId pollId optionId csrfToken,
      (csrfToken.getD "" != "" && !(validateCSRFToken storedCsrf (csrfToken.getD ""))) = false →
      validateVoteInput pollId optionId = false →
      voteAction st uid storedCsrf now freshId pollId optionId csrfToken =
        (st, VoteActionOutcome.redirectError pollId "Failed to submit vote")) ∧
    (∀ st storedCsrf now freshId pollId optionId csrfToken,
      (csrfToken.getD "" != "" && !(validateCSRFToken storedCsrf (csrfToken.getD ""))) = false →
      validateVoteInput pollId optionId = true →
      voteAction st none storedCsrf now freshId pollId optionId csrfToken =
        (st, VoteActionOutcome.redirectLogin)) ∧
    (∀ st u storedCsrf now freshId pollId optionId csrfToken,
      (csrfToken.getD "" != "" && !(validateCSRFToken storedCsrf (csrfToken.getD ""))) = false →
      validateVoteInput pollId optionId = true →
      (voteAction st (some u) storedCsrf now freshId pollId optionId csrfToken).1.rateMap =
        (checkRateLimit st.rateMap now u RLAction.vote true).1 ∧
      (∀ e, cast_vote st.db (some u) pollId optionId now freshId = .error e →
        (voteAction st (some u) storedCsrf now freshId pollId optionId csrfToken).1.db = st.db ∧
        (voteAction st (some u) storedCsrf now freshId pollId optionId csrfToken).2 =
          VoteActionOutcome.redirectError pollId (castVoteErrorMessage e)) ∧
      (∀ db1, cast_vote st.db (some u) pollId optionId now freshId = .ok db1 →
        (voteAction st (some u) storedCsrf now freshId pollId optionId csrfToken).1.db = db1 ∧
        (voteAction st (some u) storedCsrf now freshId pollId optionId csrfToken).2 =
          VoteActionOutcome.redirectVoted pollId)) := by
  refine ⟨?_, ?_, ?_, ?_⟩
  · intro st uid storedCsrf now freshId pollId optionId csrfToken hc
    exact voteAction_csrf_fail st uid storedCsrf now freshId pollId optionId csrfToken hc
  · intro st uid storedCsrf now freshId pollId optionId csrfToken hc hval
    exact voteAction_invalid_input st uid storedCsrf now freshId pollId optionId csrfToken hc hval
  · intro st storedCsrf now freshId pollId optionId csrfToken hc hval
    exact voteAction_unauthenticated st storedCsrf now freshId pollId optionId csrfToken hc hval
  · intro st u storedCsrf now freshId pollId optionId csrfToken hc hval
    rw [voteAction_authed st u storedCsrf now freshId pollId optionId csrfToken hc hval]
    cases hcast : cast_vote st.db (some u) pollId optionId now freshId with
    | error e0 =>
      refine ⟨rfl, ?_, ?_⟩
      · intro e he
        injection he with he'
        subst he'
        exact ⟨rfl, rfl⟩
      · intro db1 hdb
        exact absurd hdb (by simp)
    | ok db0 =>
      refine ⟨rfl, ?_, ?_⟩
      · intro e he
        exact absurd he (by simp)
      · intro db1 hdb
        injection hdb with hdb'
        subst hdb'
        exact ⟨rfl, rfl⟩

/-- Witness for C8 amended: the CSRF-failure conjunct at a concrete
mismatched token, and the authenticated ledger-success conjunct at the
fixture. -/
theorem c8_gate_order_and_frame_witness :
    voteAction ⟨dbFixture, RateLimitMap.empty⟩ (some "u") (some "tok") 0 "v"
        pollIdA optionIdB (some "bad") =
      (⟨dbFixture, RateLimitMap.empty⟩,
       VoteActionOutcome.redirectError pollIdA "Invalid CSRF token") ∧
    (voteAction ⟨dbFixture, RateLimitMap.empty⟩ (some "u") none 0 "v"
        pollIdA optionIdB none).2 = VoteActionOutcome.redirectVoted pollIdA :=
  ⟨c8_gate_order_and_frame.1 ⟨dbFixture, RateLimitMap.empty⟩ (some "u") (some "tok")
      0 "v" pollIdA optionIdB (some "bad") (by decide),
   ((c8_gate_order_and_frame.2.2.2 ⟨dbFixture, RateLimitMap.empty⟩ "u" none 0 "v"
      pollIdA optionIdB none (by decide) (by decide)).2.2
      ((cast_vote dbFixture (some "u") pollIdA optionIdB 0 "v").toOption.getD dbFixture)
      (by rfl)).2⟩

/-- C9.  A supplied non-empty CSRF token that does not match the stored
token makes voteAction fail with the CSRF failure before any vote is
cast, the state unchanged; with no token supplied the CSRF check is
skipped and can never be the cause of failure: the CSRF failure outcome
is unreachable. -/
theorem c9_csrf_gate (st : OrchestratorState) (uid : Option UUID)
    (storedCsrf : Option String) (now : Nat) (freshId : UUID)
    (pollId optionId : String) :
    (∀ t, t ≠ "" → validateCSRFToken storedCsrf t = false →
      voteAction st uid storedCsrf now freshId pollId optionId (some t) =
        (st, VoteActionOutcome.redirectError pollId "Invalid CSRF token")) ∧
    (voteAction st uid storedCsrf now freshId pollId optionId none).2 ≠
      VoteActionOutcome.redirectError pollId "Invalid CSRF token" := by
  constructor
  · intro t ht hval
    refine voteAction_csrf_fail st uid storedCsrf now freshId pollId optionId (some t) ?_
    simp [hval, ht]
  · have hc' : ((none : Option String).getD "" != "" &&
        !(validateCSRFToken storedCsrf ((none : Option String).getD ""))) = false := by
      simp
    by_cases hval : validateVoteInput pollId optionId = true
    · cases uid with
      | none =>
        rw [voteAction_unauthenticated st storedCsrf now freshId pollId optionId none hc' hval]
        intro hcon
        cases hcon
      | some u =>
        rw [voteAction_authed st u storedCsrf now freshId pollId optionId none hc' hval]
        cases cast_vote st.db (some u) pollId optionId now freshId with
        | error e =>
          cases e <;>
            · intro hcon
              injection hcon with h1 h2
              exact absurd h2 (by decide)
        | ok db1 =>
          intro hcon
          cases hcon
    · have hval' : validateVoteInput pollId optionId = false := by
        simpa using hval
      rw [voteAction_invalid_input st uid storedCsrf now freshId pollId optionId none hc' hval']
      intro hcon
      injection hcon with h1 h2
      exact absurd h2 (by decide)

/-- Witness for C9: mismatched token against a stored token, and the
no-token conjunct, both at the fixture state. -/
theorem c9_csrf_gate_witness :
    voteAction ⟨dbFixture, RateLimitMap.empty⟩ (some "u") (some "tok") 0 "v"
        pollIdA optionIdB (some "other") =
      (⟨dbFixture, RateLimitMap.empty⟩,
       VoteActionOutcome.redirectError pollIdA "Invalid CSRF token") ∧
    (voteAction ⟨dbFixture, RateLimitMap.empty⟩ (some "u") (some "tok") 0 "v"
        pollIdA optionIdB none).2 ≠
      VoteActionOutcome.redirectError pollIdA "Invalid CSRF token" :=
  ⟨(c9_csrf_gate ⟨dbFixture, RateLimitMap.empty⟩ (some "u") (some "tok") 0 "v"
      pollIdA optionIdB).1 "other" (by decide) (by decide),
   (c9_csrf_gate ⟨dbFixture, RateLimitMap.empty⟩ (some "u") (some "tok") 0 "v"
      pollIdA optionIdB).2⟩

end PollApp
